import Mathlib

/-!
Verification of the SectLabel operator tooling (docxServer repository).

Text is modelled as `List Char`, file bytes as `List Nat`.  Python string
primitives used by the sources (`in`, `str.replace(old, new, 1)`,
`str.lower()`, `str.strip()`, `str.split()`, `"{:<45} {}".format`) are
embedded as executable Lean functions below, and each component of the
repository (Source Patcher, Config Resolver, Diagnostic Prober, Model
Loader tokenization) is translated from its Python source.
-/

set_option maxRecDepth 400000

set_option maxHeartbeats 1000000

deriving instance DecidableEq for Except

/-- `startsWith pat s` : `pat` is a prefix of `s` (Python `s.startswith(pat)`). -/
def startsWith : List Char → List Char → Bool
  | [], _ => true
  | _ :: _, [] => false
  | p :: ps, c :: cs => p == c && startsWith ps cs

/-- Index of the first occurrence of `pat` in `s`, if any
(the search underlying Python `pat in s` and `s.replace(pat, rep, 1)`). -/
def findSub (pat : List Char) : List Char → Option Nat
  | [] => if pat = [] then some 0 else none
  | c :: cs =>
    if startsWith pat (c :: cs) then some 0
    else (findSub pat cs).map (· + 1)

/-- Python `pat in s` (substring containment). -/
def containsSub (s pat : List Char) : Bool := (findSub pat s).isSome

/-- Python `s.replace(pat, rep, 1)`: replace the first occurrence only. -/
def replaceFirst (s pat rep : List Char) : List Char :=
  match findSub pat s with
  | none => s
  | some i => s.take i ++ rep ++ s.drop (i + pat.length)

/-- ASCII lowercase of one character (Python `str.lower()` on the
characters relevant here: `A`-`Z` map down, everything else is fixed). -/
def pyLowerChar (c : Char) : Char :=
  if 65 ≤ c.toNat ∧ c.toNat ≤ 90 then Char.ofNat (c.toNat + 32) else c

/-- Python `s.lower()`. -/
def lowerText (s : List Char) : List Char := s.map pyLowerChar

/-- A single-quote character, used to spell the Python source literals. -/
def squote : Char := Char.ofNat 39

/- ===== Source Patcher (src/python/SectLabel/patch_sectlabel_lite.py) ===== -/

/-- The sentinel import line searched for by the patcher (line 20). -/
def sentinel : List Char :=
  "from sciwing.modules.embedders.bow_elmo_embedder import BowElmoEmbedder".data

/-- The replacement block built by the patcher (lines 27-32): a guard on the
environment flag `SCIWING_LITE` that binds `BowElmoEmbedder = None` when the
flag is truthy and performs the original import in the `else` branch. -/
def patchBlock : List Char :=
  "import os\nif str(os.getenv(".data ++ [squote] ++ "SCIWING_LITE".data ++ [squote]
    ++ ",".data ++ [squote, squote] ++ ")).lower() in (".data
    ++ [squote] ++ "1".data ++ [squote] ++ ",".data
    ++ [squote] ++ "true".data ++ [squote] ++ ",".data
    ++ [squote] ++ "yes".data ++ [squote] ++ ",".data
    ++ [squote] ++ "y".data ++ [squote]
    ++ "):\n    BowElmoEmbedder = None  # LITE 模式：不触发 allennlp 依赖\nelse:\n    ".data
    ++ sentinel ++ "\n".data

/-- `patched = src.replace(sentinel, block, 1)` (lines 25-35). -/
def patchText (src : List Char) : List Char := replaceFirst src sentinel patchBlock

/-- The rendered target path `ROOT / "sciwing" / "models" / "sectlabel.py"`
(lines 10-11; Windows rendering, as in the hardcoded `E:\` root). -/
def targetPathRendered : List Char :=
  "E:\\programFile\\AIProgram\\docxServer\\python\\sciwing\\sciwing\\models\\sectlabel.py".data

/-- Python exceptions raised by this repository: `SystemExit` (patcher,
line 16) and `FileNotFoundError` (resolver, model.py line 14). -/
inductive PyExc
  | systemExit (msg : List Char)
  | fileNotFound (msg : List Char)
deriving DecidableEq

/-- Membership in the `FileNotFoundError` exception class:
`SystemExit` derives from `BaseException`, not from `OSError`. -/
def isFileNotFoundClass : PyExc → Bool
  | .fileNotFound _ => true
  | .systemExit _ => false

/-- The two files the patcher touches: the target source file and the
`.py.bak_lite` backup, each `none` when absent, else its raw bytes. -/
structure FS where
  target : Option (List Nat)
  backup : Option (List Nat)
deriving DecidableEq

/-- Outcome reported by the patcher: a patch was applied, or the sentinel
was absent and it printed the nothing-to-patch message (line 22). -/
inductive PatchOutcome
  | patched
  | nothingToPatch
deriving DecidableEq

/-- A file write performed by the patcher, in program order. -/
inductive PatchWrite
  | backupWrite (content : List Nat)
  | targetWrite (content : List Nat)
deriving DecidableEq

/- ===== UTF-8 decoding/encoding =====
The patcher reads the target with `read_text(encoding="utf-8",
errors="ignore")` (line 18): undecodable bytes are skipped, never fatal.
It writes backup and target with `write_text(..., encoding="utf-8")`. -/

/-- A UTF-8 continuation byte (`0x80`-`0xBF`). -/
def contByte (b : Nat) : Bool := 0x80 ≤ b && b ≤ 0xBF

/-- Classify one UTF-8 sequence starting at byte `b` with following bytes
`rest`: `(some codepoint, extra)` decodes a scalar consuming `1 + extra`
bytes; `(none, extra)` marks an invalid sequence whose maximal valid
subpart spans `1 + extra` bytes (the span CPython's `errors="ignore"`
handler skips). -/
def utf8Classify (b : Nat) (rest : List Nat) : Option Nat × Nat :=
  if b ≤ 0x7F then (some b, 0)
  else if 0xC2 ≤ b ∧ b ≤ 0xDF then
    match rest with
    | b1 :: _ =>
      if contByte b1 then (some ((b - 0xC0) * 64 + (b1 - 0x80)), 1)
      else (none, 0)
    | [] => (none, 0)
  else if 0xE0 ≤ b ∧ b ≤ 0xEF then
    match rest with
    | b1 :: rest1 =>
      if (if b = 0xE0 then 0xA0 ≤ b1 && b1 ≤ 0xBF
          else if b = 0xED then 0x80 ≤ b1 && b1 ≤ 0x9F
          else contByte b1) then
        match rest1 with
        | b2 :: _ =>
          if contByte b2 then
            (some ((b - 0xE0) * 4096 + (b1 - 0x80) * 64 + (b2 - 0x80)), 2)
          else (none, 1)
        | [] => (none, 1)
      else (none, 0)
    | [] => (none, 0)
  else if 0xF0 ≤ b ∧ b ≤ 0xF4 then
    match rest with
    | b1 :: rest1 =>
      if (if b = 0xF0 then 0x90 ≤ b1 && b1 ≤ 0xBF
          else if b = 0xF4 then 0x80 ≤ b1 && b1 ≤ 0x8F
          else contByte b1) then
        match rest1 with
        | b2 :: rest2 =>
          if contByte b2 then
            match rest2 with
            | b3 :: _ =>
              if contByte b3 then
                (some ((b - 0xF0) * 262144 + (b1 - 0x80) * 4096 +
                  (b2 - 0x80) * 64 + (b3 - 0x80)), 3)
              else (none, 2)
            | [] => (none, 2)
          else (none, 1)
        | [] => (none, 1)
      else (none, 0)
    | [] => (none, 0)
  else (none, 0)

/-- Fuel-indexed loop of lossy UTF-8 decoding; one unit of fuel is spent
per sequence, so any fuel at least the byte count is enough. -/
def decodeIgnoreAux : Nat → List Nat → List Char
  | _, [] => []
  | 0, _ :: _ => []
  | fuel + 1, b :: bs =>
    match utf8Classify b bs with
    | (some cp, extra) => Char.ofNat cp :: decodeIgnoreAux fuel (bs.drop extra)
    | (none, extra) => decodeIgnoreAux fuel (bs.drop extra)

/-- UTF-8 decoding with `errors="ignore"`: invalid sequences are dropped
from the output, decoding never fails. -/
def decodeIgnore (bs : List Nat) : List Char := decodeIgnoreAux bs.length bs

/-- Fuel-indexed loop of strict UTF-8 decoding. -/
def decodeStrictAux : Nat → List Nat → Option (List Char)
  | _, [] => some []
  | 0, _ :: _ => none
  | fuel + 1, b :: bs =>
    match utf8Classify b bs with
    | (some cp, extra) =>
      (decodeStrictAux fuel (bs.drop extra)).map (Char.ofNat cp :: ·)
    | (none, _) => none

/-- Strict UTF-8 decoding (`errors="strict"`): fails on any invalid
sequence. -/
def decodeStrict (bs : List Nat) : Option (List Char) :=
  decodeStrictAux bs.length bs

/-- UTF-8 encoding of one scalar value. -/
def encodeChar (c : Char) : List Nat :=
  let n := c.toNat
  if n ≤ 0x7F then [n]
  else if n ≤ 0x7FF then [0xC0 + n / 64, 0x80 + n % 64]
  else if n ≤ 0xFFFF then
    [0xE0 + n / 4096, 0x80 + n / 64 % 64, 0x80 + n % 64]
  else
    [0xF0 + n / 262144, 0x80 + n / 4096 % 64, 0x80 + n / 64 % 64, 0x80 + n % 64]

/-- UTF-8 encoding of a text (`write_text(..., encoding="utf-8")`). -/
def encodeUtf8 (s : List Char) : List Nat := s.flatMap encodeChar

/-- The Source Patcher's `main` (patch_sectlabel_lite.py lines 14-40) over
the two files it touches.  Raises `SystemExit` when the target is missing;
otherwise decodes the target bytes lossily, checks for the sentinel, and on
a hit writes the backup (pre-patch text re-encoded) before writing the
patched target.  The returned list of writes is in program order. -/
def patchMain (fs : FS) : Except PyExc (FS × PatchOutcome × List PatchWrite) :=
  match fs.target with
  | none => .error (.systemExit ("找不到文件: ".data ++ targetPathRendered))
  | some bytes =>
    let src := decodeIgnore bytes
    if containsSub src sentinel then
      let patched := patchText src
      .ok ({ target := some (encodeUtf8 patched), backup := some (encodeUtf8 src) },
        .patched,
        [.backupWrite (encodeUtf8 src), .targetWrite (encodeUtf8 patched)])
    else
      .ok (fs, .nothingToPatch, [])

/- ===== Config Resolver (src/python/SectLabel/model.py, lines 11-16) ===== -/

/-- The operating-system facts `resolve_path` consults: `os.environ.get`
and `os.path.isfile`.  `os.path.isfile("")` is always `False`, recorded as
an invariant of the interface. -/
structure OsEnv where
  environGet : List Char → Option (List Char)
  isfile : List Char → Bool
  isfile_empty : isfile [] = false

/-- Python `a or b` where `a` is a possibly-absent string (absent and empty
are both falsy). -/
def pyOrOpt (a : Option (List Char)) (b : List Char) : List Char :=
  match a with
  | some v => if v = [] then b else v
  | none => b

/-- The candidate picked on model.py line 13:
`path = cli_value or os.environ.get(env_key) or default_value`. -/
def selectPath (E : OsEnv) (cli : Option (List Char)) (envKey deflt : List Char) :
    List Char :=
  pyOrOpt cli (pyOrOpt (E.environGet envKey) deflt)

/-- The `FileNotFoundError` message of model.py line 14: it cites the
attempted path, the derived flag name (`env_key[5:].lower()`), and the
environment variable name. -/
def resolveMsg (path envKey : List Char) : List Char :=
  "文件不存在：".data ++ path ++ "（可用 --".data ++ lowerText (envKey.drop 5)
    ++ " 或设置环境变量 ".data ++ envKey ++ "）".data

/-- `resolve_path` (model.py lines 11-16). -/
def resolve_path (E : OsEnv) (cli : Option (List Char)) (envKey deflt : List Char) :
    Except PyExc (List Char) :=
  let path := selectPath E cli envKey deflt
  if path = [] ∨ E.isfile path = false then
    .error (.fileNotFound (resolveMsg path envKey))
  else .ok path

/- ===== Model Loader tokenization (model.py, lines 27-29) ===== -/

/-- Python `str` whitespace for `strip()`/`split()` (ASCII portion:
space, tab, newline, carriage return, vertical tab, form feed). -/
def isPySpace (c : Char) : Bool :=
  c == ' ' || c == '\t' || c == '\n' || c == '\r' ||
    c == Char.ofNat 11 || c == Char.ofNat 12

/-- Python `text.strip()`. -/
def pyStrip (s : List Char) : List Char :=
  ((s.dropWhile isPySpace).reverse.dropWhile isPySpace).reverse

/-- Accumulator pass of Python `text.split()` (split on whitespace runs,
discarding empty pieces). -/
def pySplitAux : List Char → List Char → List (List Char)
  | [], acc => if acc.isEmpty then [] else [acc.reverse]
  | c :: cs, acc =>
    if isPySpace c then
      if acc.isEmpty then pySplitAux cs [] else acc.reverse :: pySplitAux cs []
    else pySplitAux cs (c :: acc)

/-- Python `text.split()` with no separator argument. -/
def pySplit (s : List Char) : List (List Char) := pySplitAux s []

/-- `tokens = text.strip().split()` from `run_once` (model.py line 28). -/
def runOnceTokens (text : List Char) : List (List Char) := pySplit (pyStrip text)

/- ===== Semantics of the patched header block =====
The block the patcher splices in (its text is `patchBlock` above) runs, in
the patched module, `os.getenv('SCIWING_LITE','')`, lowercases it, and
binds `BowElmoEmbedder = None` when the value is in the truthy tuple
`('1','true','yes','y')`, else performs the original import. -/

/-- The binding the patched header leaves `BowElmoEmbedder` with. -/
inductive BowBinding
  | setNone
  | imported
deriving DecidableEq

/-- Evaluation of the guard block spliced in by the patcher (read off the
replacement text built on patch_sectlabel_lite.py lines 27-32), as a
function of the `SCIWING_LITE` environment value (`none` = unset;
`os.getenv` defaults it to the empty string). -/
def patchedHeaderSem (liteValue : Option (List Char)) : BowBinding :=
  let v := lowerText (liteValue.getD [])
  if v = "1".data ∨ v = "true".data ∨ v = "yes".data ∨ v = "y".data then
    .setNone
  else .imported

/- ===== Diagnostic Prober (src/python/SectLabel/probe_diag.py) ===== -/

/-- An imported Python module, abstracted to its optional
`__version__` attribute. -/
structure PyModule where
  version : Option (List Char)

/-- Result of `__import__(name)`: the module, or a raised exception
rendered by `str(e)`. -/
inductive ImportOutcome
  | success (m : PyModule)
  | raised (msg : List Char)

/-- The external world the prober observes: the import machinery, the
process environment, interpreter/platform strings, and the outcomes of the
two smoke-test bodies (each an external call that may raise). -/
structure ProbeEnv where
  importMod : List Char → ImportOutcome
  getenv : List Char → Option (List Char)
  pythonExecutable : List Char
  pythonVersion : List Char
  platformDescr : List Char
  spacyRun : Except (List Char) (List Char)
  tbxRun : Except (List Char) Bool

/-- `safe_import` (probe_diag.py lines 7-12): the `try`/`except Exception`
wrapper makes every import attempt total, returning `(mod, None)` or
`(None, str(e))`. -/
def safe_import (E : ProbeEnv) (name : List Char) :
    Option PyModule × Option (List Char) :=
  match E.importMod name with
  | .success m => (some m, none)
  | .raised e => (none, some e)

/-- Left-justified padding to a minimum width (Python `"{:<45}"`). -/
def padRight (w : Nat) (s : List Char) : List Char :=
  s ++ List.replicate (w - s.length) ' '

/-- `print_kv` (probe_diag.py lines 14-15): `"{:<45} {}".format(k, v)`. -/
def print_kv (k v : List Char) : List Char := padRight 45 k ++ " ".data ++ v

/-- The value column of a package status line (probe_diag.py lines 62-68):
the module's `__version__` (or `N/A`), or `NOT INSTALLED (err)`. -/
def pkgStatus (r : Option PyModule × Option (List Char)) : List Char :=
  match r.1 with
  | some m => m.version.getD "N/A".data
  | none => "NOT INSTALLED (".data ++ r.2.getD [] ++ ")".data

/-- `spaCy_smoke` (probe_diag.py lines 17-25): its own `try`/`except`
always yields exactly one printed line. -/
def spaCy_smoke (E : ProbeEnv) (spacy : Option PyModule) : List Char :=
  match spacy with
  | none => print_kv "SPACY SMOKE".data "FAILED -> spacy not installed".data
  | some _ =>
    match E.spacyRun with
    | .ok s => print_kv "SPACY SMOKE".data ("OK -> ".data ++ s)
    | .error e => print_kv "SPACY SMOKE".data ("FAILED -> ".data ++ e)

/-- `tbx_smoke` (probe_diag.py lines 27-34): one printed line, either way. -/
def tbx_smoke (E : ProbeEnv) (tbx : Option PyModule) : List Char :=
  match tbx with
  | none =>
    print_kv "TENSORBOARDX SMOKE".data "FAILED -> tensorboardX not installed".data
  | some _ =>
    match E.tbxRun with
    | .ok c =>
      print_kv "TENSORBOARDX SMOKE".data
        ("OK; SummaryWriter available = ".data ++
          (if c then "True".data else "False".data))
    | .error e => print_kv "TENSORBOARDX SMOKE".data ("FAILED -> ".data ++ e)

/-- `"=" * 60`. -/
def sep60 : List Char := List.replicate 60 '='

/-- `print("\n" + "=" * 60)`. -/
def nlSep60 : List Char := '\n' :: sep60

/-- The prober's `main` (probe_diag.py lines 36-80) as the ordered list of
printed strings. -/
def probeMain (E : ProbeEnv) : List (List Char) :=
  let pb := safe_import E "google.protobuf".data
  let spacy := safe_import E "spacy".data
  let torch := safe_import E "torch".data
  let gensim := safe_import E "gensim".data
  let tbx := safe_import E "tensorboardX".data
  let lmdb := safe_import E "lmdb".data
  let sciwing := safe_import E "sciwing".data
  [sep60, "RUNTIME".data, sep60,
   print_kv "python_executable".data E.pythonExecutable,
   print_kv "python_version".data
     (E.pythonVersion.map (fun c => if c = '\n' then ' ' else c)),
   print_kv "platform".data E.platformDescr,
   nlSep60, "ENV VARS".data, sep60,
   print_kv "SCIWING_LITE".data ((E.getenv "SCIWING_LITE".data).getD "None".data),
   print_kv "PROTOCOL_BUFFERS_PYTHON_IMPLEMENTATION".data
     ((E.getenv "PROTOCOL_BUFFERS_PYTHON_IMPLEMENTATION".data).getD "None".data),
   nlSep60, "PACKAGES".data, sep60,
   print_kv "protobuf".data (pkgStatus pb),
   print_kv "spacy".data (pkgStatus spacy),
   print_kv "torch".data (pkgStatus torch),
   print_kv "gensim".data (pkgStatus gensim),
   print_kv "tensorboardX".data (pkgStatus tbx),
   print_kv "lmdb".data (pkgStatus lmdb),
   print_kv "sciwing".data (pkgStatus sciwing),
   nlSep60, "SMOKE TESTS".data, sep60,
   spaCy_smoke E spacy.1,
   tbx_smoke E tbx.1,
   nlSep60, "DONE".data, sep60]

theorem startsWith_self_append (pat rest : List Char) :
    startsWith pat (pat ++ rest) = true := by
  induction pat with
  | nil => rfl
  | cons p ps ih => simp [startsWith, ih]

theorem findSub_isSome_of_startsWith_drop (pat : List Char) :
    ∀ (s : List Char) (i : Nat), startsWith pat (s.drop i) = true →
      (findSub pat s).isSome = true := by
  intro s
  induction s with
  | nil =>
    intro i h
    simp only [List.drop_nil] at h
    cases pat with
    | nil => simp [findSub]
    | cons p ps => simp [startsWith] at h
  | cons c cs ih =>
    intro i h
    cases i with
    | zero =>
      simp only [List.drop_zero] at h
      simp [findSub, h]
    | succ j =>
      simp only [List.drop_succ_cons] at h
      by_cases hs : startsWith pat (c :: cs) = true
      · simp [findSub, hs]
      · have := ih j h
        simp only [findSub, hs, if_false, Option.isSome_map]
        simpa using this

theorem containsSub_append_middle (a b c : List Char) :
    containsSub (a ++ b ++ c) b = true := by
  have hdrop : (a ++ b ++ c).drop a.length = b ++ c := by
    rw [List.append_assoc, List.drop_left]
  unfold containsSub
  exact findSub_isSome_of_startsWith_drop b (a ++ b ++ c) a.length
    (by rw [hdrop]; exact startsWith_self_append b c)

/-- The part of the replacement block before the re-spelled import line. -/
def patchBlockHead : List Char :=
  "import os\nif str(os.getenv(".data ++ [squote] ++ "SCIWING_LITE".data ++ [squote]
    ++ ",".data ++ [squote, squote] ++ ")).lower() in (".data
    ++ [squote] ++ "1".data ++ [squote] ++ ",".data
    ++ [squote] ++ "true".data ++ [squote] ++ ",".data
    ++ [squote] ++ "yes".data ++ [squote] ++ ",".data
    ++ [squote] ++ "y".data ++ [squote]
    ++ "):\n    BowElmoEmbedder = None  # LITE 模式：不触发 allennlp 依赖\nelse:\n    ".data

theorem patchBlock_decomp : patchBlock = patchBlockHead ++ sentinel ++ "\n".data := rfl

theorem pySplitAux_mem_ne_nil :
    ∀ (s acc t : List Char), t ∈ pySplitAux s acc → t ≠ [] := by
  intro s
  induction s with
  | nil =>
    intro acc t ht
    unfold pySplitAux at ht
    by_cases h : acc.isEmpty = true
    · simp [h] at ht
    · simp [h] at ht
      subst ht
      intro hc
      exact h (by simp [List.isEmpty_iff, List.reverse_eq_nil_iff.mp hc])
  | cons c cs ih =>
    intro acc t ht
    unfold pySplitAux at ht
    by_cases hsp : isPySpace c = true
    · by_cases h : acc.isEmpty = true
      · simp [hsp, h] at ht
        exact ih [] t ht
      · simp [hsp, h] at ht
        rcases ht with rfl | ht
        · intro hc
          exact h (by simp [List.isEmpty_iff, List.reverse_eq_nil_iff.mp hc])
        · exact ih [] t ht
    · simp [hsp] at ht
      exact ih (c :: acc) t ht

theorem pyStrip_all_space (s : List Char) (h : ∀ c ∈ s, isPySpace c = true) :
    pyStrip s = [] := by
  unfold pyStrip
  have h1 : s.dropWhile isPySpace = [] := by
    induction s with
    | nil => rfl
    | cons c cs ih =>
      have hc : isPySpace c = true := h c (List.mem_cons_self c cs)
      simp only [List.dropWhile_cons, hc, if_true]
      exact ih (fun x hx => h x (List.mem_cons_of_mem c hx))
  rw [h1]
  rfl

theorem utf8Classify_invalid_lead (b : Nat) (rest : List Nat)
    (h : (0x80 ≤ b ∧ b ≤ 0xC1) ∨ 0xF5 ≤ b) : utf8Classify b rest = (none, 0) := by
  have h1 : ¬ b ≤ 0x7F := by omega
  have h2 : ¬ (0xC2 ≤ b ∧ b ≤ 0xDF) := by omega
  have h3 : ¬ (0xE0 ≤ b ∧ b ≤ 0xEF) := by omega
  have h4 : ¬ (0xF0 ≤ b ∧ b ≤ 0xF4) := by omega
  unfold utf8Classify
  simp [h1, h2, h3, h4]

theorem decodeAux_agree :
    ∀ (fuel : Nat) (bs : List Nat) (cs : List Char), bs.length ≤ fuel →
      decodeStrictAux fuel bs = some cs → decodeIgnoreAux fuel bs = cs := by
  intro fuel
  induction fuel with
  | zero =>
    intro bs cs hlen h
    cases bs with
    | nil =>
      simp [decodeStrictAux] at h
      subst h
      rfl
    | cons b bs' => simp at hlen
  | succ f ih =>
    intro bs cs hlen h
    cases bs with
    | nil =>
      simp [decodeStrictAux] at h
      subst h
      rfl
    | cons b bs' =>
      rcases hc : utf8Classify b bs' with ⟨ocp, extra⟩
      cases ocp with
      | none =>
        simp only [decodeStrictAux, hc] at h
        exact absurd h (by simp)
      | some cp =>
        simp only [decodeStrictAux, hc, Option.map_eq_some'] at h
        obtain ⟨cs', h1, rfl⟩ := h
        have hlen' : (bs'.drop extra).length ≤ f := by
          simp only [List.length_drop]
          simp only [List.length_cons] at hlen
          omega
        simp only [decodeIgnoreAux, hc]
        rw [ih (bs'.drop extra) cs' hlen' h1]

/-- `findSub` returns the least index at which `pat` matches. -/
theorem findSub_spec (pat : List Char) :
    ∀ (s : List Char) (i : Nat), findSub pat s = some i →
      startsWith pat (s.drop i) = true ∧
        ∀ j, j < i → startsWith pat (s.drop j) = false := by
  intro s
  induction s with
  | nil =>
    intro i h
    unfold findSub at h
    by_cases hp : pat = ([] : List Char)
    · subst hp
      simp at h
      subst h
      exact ⟨rfl, by omega⟩
    · simp [hp] at h
  | cons c cs ih =>
    intro i h
    unfold findSub at h
    by_cases hs : startsWith pat (c :: cs) = true
    · simp [hs] at h
      subst h
      exact ⟨hs, by omega⟩
    · simp [hs] at h
      obtain ⟨i', hi', rfl⟩ := h
      obtain ⟨h1, h2⟩ := ih i' hi'
      refine ⟨by simpa using h1, ?_⟩
      intro j hj
      cases j with
      | zero => simpa using eq_false_of_ne_true hs
      | succ j' =>
        simp only [List.drop_succ_cons]
        exact h2 j' (by omega)

/- ===== Claim theorems ===== -/

/-- A one-line example target: exactly the sentinel import line. -/
def exSrc0 : List Char := sentinel ++ ['\n']

/-- C1 (code bug evidence): the patcher is not idempotent.  On a target
holding exactly the sentinel line, the first run patches; a second run on
the result again finds the sentinel (the replacement's `else` branch
contains it), reports `.patched` rather than nothing-to-patch, performs a
backup write and a target write, and leaves a target different from the
once-patched content — a double patch. -/
theorem patcher_second_run_double_patches :
    patchMain { target := some (encodeUtf8 exSrc0), backup := none } =
      .ok ({ target := some (encodeUtf8 (patchText exSrc0)),
             backup := some (encodeUtf8 exSrc0) },
        .patched,
        [.backupWrite (encodeUtf8 exSrc0),
         .targetWrite (encodeUtf8 (patchText exSrc0))]) ∧
    patchMain { target := some (encodeUtf8 (patchText exSrc0)),
                backup := some (encodeUtf8 exSrc0) } =
      .ok ({ target := some (encodeUtf8 (patchText (patchText exSrc0))),
             backup := some (encodeUtf8 (patchText exSrc0)) },
        .patched,
        [.backupWrite (encodeUtf8 (patchText exSrc0)),
         .targetWrite (encodeUtf8 (patchText (patchText exSrc0)))]) ∧
    patchText (patchText exSrc0) ≠ patchText exSrc0 := by
  refine ⟨by decide, by decide, by decide⟩

/-- C2 (counterexample): a target consisting of exactly the sentinel line
contains the sentinel exactly once (at index 0, with no second occurrence
after it), yet after one patch run the target text still contains the
literal sentinel substring. -/
theorem patch_sentinel_persists_cex :
    findSub sentinel exSrc0 = some 0 ∧
    findSub sentinel (exSrc0.drop sentinel.length) = none ∧
    containsSub (patchText exSrc0) sentinel = true := by
  refine ⟨by decide, by decide, by decide⟩

/-- C2 (amended): patching a target that contains the sentinel replaces
its first occurrence with the guard block, but the resulting target still
contains the literal sentinel substring — the block's `else` branch
re-spells the import line verbatim. -/
theorem patch_replaces_but_keeps_sentinel (src : List Char)
    (h : containsSub src sentinel = true) :
    containsSub (patchText src) sentinel = true ∧
      ∃ i, findSub sentinel src = some i ∧
        patchText src = src.take i ++ patchBlock ++ src.drop (i + sentinel.length) := by
  obtain ⟨i, hi⟩ : ∃ i, findSub sentinel src = some i := by
    unfold containsSub at h
    exact Option.isSome_iff_exists.mp h
  have hp : patchText src = src.take i ++ patchBlock ++ src.drop (i + sentinel.length) := by
    unfold patchText replaceFirst
    rw [hi]
  refine ⟨?_, i, hi, hp⟩
  rw [hp, patchBlock_decomp]
  have := containsSub_append_middle (src.take i ++ patchBlockHead) sentinel
    ("\n".data ++ src.drop (i + sentinel.length))
  simpa [List.append_assoc] using this

/-- C2 (witness): the amended statement evaluated on the one-line target. -/
theorem patch_replaces_but_keeps_sentinel_witness :
    containsSub (patchText exSrc0) sentinel = true ∧
      ∃ i, findSub sentinel exSrc0 = some i ∧
        patchText exSrc0 =
          exSrc0.take i ++ patchBlock ++ exSrc0.drop (i + sentinel.length) :=
  patch_replaces_but_keeps_sentinel exSrc0 (by decide)

/-- C3 (counterexample): when the target file is missing, the patcher
raises `SystemExit` (patch_sectlabel_lite.py line 16), which is not in the
`FileNotFoundError` class. -/
theorem patcher_missing_target_cex :
    patchMain { target := none, backup := none } =
      .error (.systemExit ("找不到文件: ".data ++ targetPathRendered)) ∧
    isFileNotFoundClass (.systemExit ("找不到文件: ".data ++ targetPathRendered)) = false := by
  exact ⟨rfl, rfl⟩

/-- C3 (amended): on a missing target the patcher always fails, but with a
`SystemExit` carrying the 找不到文件 message and the target path — not with
a `FileNotFoundError`-class error. -/
theorem patcher_missing_target_systemexit (fs : FS) (h : fs.target = none) :
    patchMain fs = .error (.systemExit ("找不到文件: ".data ++ targetPathRendered)) ∧
      ∀ e, patchMain fs = .error e → isFileNotFoundClass e = false := by
  have h1 : patchMain fs = .error (.systemExit ("找不到文件: ".data ++ targetPathRendered)) := by
    unfold patchMain
    rw [h]
  refine ⟨h1, ?_⟩
  intro e he
  rw [h1] at he
  cases he
  rfl

/-- C3 (witness): the amended statement on a concrete filesystem with the
target absent. -/
theorem patcher_missing_target_systemexit_witness :
    patchMain { target := none, backup := some [] } =
      .error (.systemExit ("找不到文件: ".data ++ targetPathRendered)) ∧
      ∀ e, patchMain { target := none, backup := some [] } = .error e →
        isFileNotFoundClass e = false :=
  patcher_missing_target_systemexit { target := none, backup := some [] } rfl

/-- A target whose bytes are the sentinel line followed by one undecodable
byte `0xFF`. -/
def exBadBytes : List Nat := encodeUtf8 exSrc0 ++ [0xFF]

/-- C5 (counterexample): on a patching run over a target holding the
sentinel line plus one undecodable byte, the backup that gets written is
the lossily-decoded text re-encoded — not byte-for-byte equal to the
pre-patch target content (the `0xFF` byte is gone). -/
theorem patcher_backup_lossy_cex :
    patchMain { target := some exBadBytes, backup := none } =
      .ok ({ target := some (encodeUtf8 (patchText exSrc0)),
             backup := some (encodeUtf8 exSrc0) },
        .patched,
        [.backupWrite (encodeUtf8 exSrc0),
         .targetWrite (encodeUtf8 (patchText exSrc0))]) ∧
    encodeUtf8 exSrc0 ≠ exBadBytes := by
  refine ⟨by decide, by decide⟩

/-- C5 (amended): on every patching run (sentinel present in the decoded
text) the backup write precedes the target write, and the backup holds the
UTF-8 re-encoding of the lossily decoded pre-patch content; when
decode-then-encode round-trips the target bytes (in particular for valid
UTF-8 content), the backup equals the pre-patch bytes byte-for-byte. -/
theorem patcher_backup_before_target (fs : FS) (bytes : List Nat)
    (h : fs.target = some bytes)
    (hs : containsSub (decodeIgnore bytes) sentinel = true) :
    patchMain fs =
      .ok ({ target := some (encodeUtf8 (patchText (decodeIgnore bytes))),
             backup := some (encodeUtf8 (decodeIgnore bytes)) },
        .patched,
        [.backupWrite (encodeUtf8 (decodeIgnore bytes)),
         .targetWrite (encodeUtf8 (patchText (decodeIgnore bytes)))]) ∧
      (encodeUtf8 (decodeIgnore bytes) = bytes →
        patchMain fs =
          .ok ({ target := some (encodeUtf8 (patchText (decodeIgnore bytes))),
                 backup := some bytes },
            .patched,
            [.backupWrite bytes,
             .targetWrite (encodeUtf8 (patchText (decodeIgnore bytes)))])) := by
  have h1 : patchMain fs =
      .ok ({ target := some (encodeUtf8 (patchText (decodeIgnore bytes))),
             backup := some (encodeUtf8 (decodeIgnore bytes)) },
        .patched,
        [.backupWrite (encodeUtf8 (decodeIgnore bytes)),
         .targetWrite (encodeUtf8 (patchText (decodeIgnore bytes)))]) := by
    unfold patchMain
    rw [h]
    simp only [hs, if_true]
  refine ⟨h1, fun hrt => ?_⟩
  rw [hrt] at h1
  exact h1

/-- C5 (witness): the amended statement evaluated on a valid one-line
target, where the round-trip premise holds and the backup is
byte-for-byte. -/
theorem patcher_backup_before_target_witness :
    (patchMain { target := some (encodeUtf8 exSrc0), backup := none } =
      .ok ({ target := some (encodeUtf8 (patchText (decodeIgnore (encodeUtf8 exSrc0)))),
             backup := some (encodeUtf8 (decodeIgnore (encodeUtf8 exSrc0))) },
        .patched,
        [.backupWrite (encodeUtf8 (decodeIgnore (encodeUtf8 exSrc0))),
         .targetWrite (encodeUtf8 (patchText (decodeIgnore (encodeUtf8 exSrc0))))]) ∧
      (encodeUtf8 (decodeIgnore (encodeUtf8 exSrc0)) = encodeUtf8 exSrc0 →
        patchMain { target := some (encodeUtf8 exSrc0), backup := none } =
          .ok ({ target := some (encodeUtf8 (patchText (decodeIgnore (encodeUtf8 exSrc0)))),
                 backup := some (encodeUtf8 exSrc0) },
            .patched,
            [.backupWrite (encodeUtf8 exSrc0),
             .targetWrite (encodeUtf8 (patchText (decodeIgnore (encodeUtf8 exSrc0))))]))) :=
  patcher_backup_before_target
    { target := some (encodeUtf8 exSrc0), backup := none }
    (encodeUtf8 exSrc0) rfl (by decide)

/-- C8: patching replaces only the first occurrence of the sentinel
(no earlier index matches), splicing in the replacement block; the block
text ends in the re-spelled import (the `else` branch) and contains the
`BowElmoEmbedder = None` binding; and the block's guard binds the symbol
to `None` exactly when the lowercased `SCIWING_LITE` value is one of
`1`, `true`, `yes`, `y`. -/
theorem patcher_replacement_block :
    (∀ (src : List Char) (i : Nat), findSub sentinel src = some i →
      patchText src = src.take i ++ patchBlock ++ src.drop (i + sentinel.length) ∧
        ∀ j, j < i → startsWith sentinel (src.drop j) = false) ∧
    (∀ v : Option (List Char),
      patchedHeaderSem v = .setNone ↔
        lowerText (v.getD []) ∈ ["1".data, "true".data, "yes".data, "y".data]) ∧
    patchBlock = patchBlockHead ++ sentinel ++ "\n".data ∧
    containsSub patchBlock "BowElmoEmbedder = None".data = true := by
  refine ⟨?_, ?_, patchBlock_decomp, by decide⟩
  · intro src i h
    refine ⟨?_, (findSub_spec sentinel src i h).2⟩
    unfold patchText replaceFirst
    rw [h]
  · intro v
    simp only [patchedHeaderSem, List.mem_cons, List.not_mem_nil, or_false]
    split
    · next hcond => simp [hcond]
    · next hcond => simp [hcond]

/-- A target with the sentinel at index 2 and trailing text. -/
def exSrc2 : List Char := "x ".data ++ sentinel ++ " y".data

/-- C8 (witness): the first-occurrence clause evaluated on a target whose
sentinel sits at index 2. -/
theorem patcher_replacement_block_witness :
    patchText exSrc2 = exSrc2.take 2 ++ patchBlock ++ exSrc2.drop (2 + sentinel.length) ∧
      ∀ j, j < 2 → startsWith sentinel (exSrc2.drop j) = false :=
  patcher_replacement_block.1 exSrc2 2 (by decide)

/-- Environment for the C4 counterexample: `ELMO_OPTIONS` is set to a
path that is not a file, while the default names an existing file. -/
def resolverCexEnv : OsEnv where
  environGet := fun k => if k = "ELMO_OPTIONS".data then some "/nope".data else none
  isfile := fun p => p == "/default".data
  isfile_empty := rfl

/-- C4 (counterexample): with the explicit value absent, the environment
variable set to a non-existing path, and the default an existing file, the
resolver raises instead of returning the default — a set-but-invalid env
value is selected and then fails the existence check, with no fallback. -/
theorem resolver_no_default_fallback_cex :
    resolverCexEnv.isfile "/default".data = true ∧
    resolve_path resolverCexEnv none "ELMO_OPTIONS".data "/default".data =
      .error (.fileNotFound (resolveMsg "/nope".data "ELMO_OPTIONS".data)) := by
  refine ⟨by decide, by decide⟩

/-- C4 (amended): the resolver returns the explicit value whenever it is
non-empty and an existing file, regardless of env/default; with explicit
absent/empty it returns the env value when that is set, non-empty and an
existing file; and it returns the default (when an existing file) only if
both explicit and env are absent or empty — a set, non-empty env value
that is not an existing file makes resolution fail instead. -/
theorem resolver_precedence :
    (∀ (E : OsEnv) (cli : Option (List Char)) (envKey deflt v : List Char),
      cli = some v → v ≠ [] → E.isfile v = true →
        resolve_path E cli envKey deflt = .ok v) ∧
    (∀ (E : OsEnv) (cli : Option (List Char)) (envKey deflt w : List Char),
      (cli = none ∨ cli = some []) → E.environGet envKey = some w → w ≠ [] →
        E.isfile w = true → resolve_path E cli envKey deflt = .ok w) ∧
    (∀ (E : OsEnv) (cli : Option (List Char)) (envKey deflt : List Char),
      (cli = none ∨ cli = some []) →
      (E.environGet envKey = none ∨ E.environGet envKey = some []) →
      E.isfile deflt = true → resolve_path E cli envKey deflt = .ok deflt) := by
  refine ⟨?_, ?_, ?_⟩
  · intro E cli envKey deflt v hcli hv hfile
    subst hcli
    have hsel : selectPath E (some v) envKey deflt = v := by
      simp [selectPath, pyOrOpt, hv]
    have hcond : ¬(v = [] ∨ E.isfile v = false) := by simp [hv, hfile]
    simp only [resolve_path]
    rw [hsel, if_neg hcond]
  · intro E cli envKey deflt w hcli henv hw hfile
    have hsel : selectPath E cli envKey deflt = w := by
      rcases hcli with rfl | rfl <;> simp [selectPath, pyOrOpt, henv, hw]
    have hcond : ¬(w = [] ∨ E.isfile w = false) := by simp [hw, hfile]
    simp only [resolve_path]
    rw [hsel, if_neg hcond]
  · intro E cli envKey deflt hcli henv hfile
    have hdef : deflt ≠ [] := by
      intro hd
      rw [hd, E.isfile_empty] at hfile
      exact Bool.false_ne_true hfile
    have hsel : selectPath E cli envKey deflt = deflt := by
      rcases hcli with rfl | rfl <;> rcases henv with he | he <;>
        simp [selectPath, pyOrOpt, he]
    have hcond : ¬(deflt = [] ∨ E.isfile deflt = false) := by simp [hdef, hfile]
    simp only [resolve_path]
    rw [hsel, if_neg hcond]

/-- Environment for the C4 witness: `K1` is set to an existing file, and
three paths exist. -/
def resolverWitnessEnv : OsEnv where
  environGet := fun k => if k = "K1".data then some "/envfile".data else none
  isfile := fun p => p == "/cli".data || p == "/envfile".data || p == "/def".data
  isfile_empty := rfl

/-- C4 (witness): the three precedence clauses evaluated on concrete
inputs — explicit wins, then env, then default. -/
theorem resolver_precedence_witness :
    resolve_path resolverWitnessEnv (some "/cli".data) "K1".data "/def".data =
      .ok "/cli".data ∧
    resolve_path resolverWitnessEnv none "K1".data "/def".data =
      .ok "/envfile".data ∧
    resolve_path resolverWitnessEnv none "K2".data "/def".data =
      .ok "/def".data :=
  ⟨resolver_precedence.1 resolverWitnessEnv (some "/cli".data) "K1".data
      "/def".data "/cli".data rfl (by decide) (by decide),
   resolver_precedence.2.1 resolverWitnessEnv none "K1".data "/def".data
      "/envfile".data (Or.inl rfl) (by decide) (by decide) (by decide),
   resolver_precedence.2.2 resolverWitnessEnv none "K2".data "/def".data
      (Or.inl rfl) (Or.inl (by decide)) (by decide)⟩

/-- C6: whenever the selected candidate is empty or not an existing file,
the resolver fails with a `FileNotFoundError` whose message contains the
attempted path and the environment variable name. -/
theorem resolver_error_reports_path_and_env (E : OsEnv) (cli : Option (List Char))
    (envKey deflt : List Char)
    (h : selectPath E cli envKey deflt = [] ∨
         E.isfile (selectPath E cli envKey deflt) = false) :
    resolve_path E cli envKey deflt =
      .error (.fileNotFound (resolveMsg (selectPath E cli envKey deflt) envKey)) ∧
    containsSub (resolveMsg (selectPath E cli envKey deflt) envKey)
      (selectPath E cli envKey deflt) = true ∧
    containsSub (resolveMsg (selectPath E cli envKey deflt) envKey) envKey = true := by
  refine ⟨?_, ?_, ?_⟩
  · simp only [resolve_path]
    rw [if_pos h]
  · have := containsSub_append_middle "文件不存在：".data
      (selectPath E cli envKey deflt)
      ("（可用 --".data ++ lowerText (envKey.drop 5) ++ " 或设置环境变量 ".data
        ++ envKey ++ "）".data)
    unfold resolveMsg
    simpa [List.append_assoc] using this
  · have := containsSub_append_middle
      ("文件不存在：".data ++ selectPath E cli envKey deflt ++ "（可用 --".data
        ++ lowerText (envKey.drop 5) ++ " 或设置环境变量 ".data)
      envKey "）".data
    unfold resolveMsg
    simpa [List.append_assoc] using this

/-- Environment for end-to-end scenario 1: everything unset, no files. -/
def resolverScenario1Env : OsEnv where
  environGet := fun _ => none
  isfile := fun _ => false
  isfile_empty := rfl

/-- C6 (witness): scenario 1 — `resolve(None, "ELMO_OPTIONS", "/bad/path")`
with the variable unset fails with a message referencing `/bad/path`. -/
theorem resolver_error_reports_witness :
    resolve_path resolverScenario1Env none "ELMO_OPTIONS".data "/bad/path".data =
      .error (.fileNotFound (resolveMsg
        (selectPath resolverScenario1Env none "ELMO_OPTIONS".data "/bad/path".data)
        "ELMO_OPTIONS".data)) ∧
    containsSub (resolveMsg
        (selectPath resolverScenario1Env none "ELMO_OPTIONS".data "/bad/path".data)
        "ELMO_OPTIONS".data)
      (selectPath resolverScenario1Env none "ELMO_OPTIONS".data "/bad/path".data) = true ∧
    containsSub (resolveMsg
        (selectPath resolverScenario1Env none "ELMO_OPTIONS".data "/bad/path".data)
        "ELMO_OPTIONS".data) "ELMO_OPTIONS".data = true :=
  resolver_error_reports_path_and_env resolverScenario1Env none
    "ELMO_OPTIONS".data "/bad/path".data (Or.inr (by decide))

/-- C9 (counterexample): the patcher's lossy read of `[0x41, 0xFF, 0x42]`
yields just `AB` — the undecodable `0xFF` byte is dropped, with no
substitution character in its place (and the text is shorter than the
input). -/
theorem decode_drops_not_substitutes_cex :
    decodeIgnore [0x41, 0xFF, 0x42] = ['A', 'B'] ∧
    Char.ofNat 0xFFFD ∉ decodeIgnore [0x41, 0xFF, 0x42] ∧
    (decodeIgnore [0x41, 0xFF, 0x42]).length = 2 := by
  refine ⟨by decide, by decide, by decide⟩

/-- C9 (amended): the read is total and never fatal; it agrees with strict
UTF-8 decoding whenever the bytes are fully valid, and an undecodable lead
byte is dropped from the output rather than substituted. -/
theorem decode_ignore_total_and_drops :
    (∀ (bs : List Nat) (cs : List Char),
      decodeStrict bs = some cs → decodeIgnore bs = cs) ∧
    (∀ (b : Nat) (bs : List Nat), (0x80 ≤ b ∧ b ≤ 0xC1) ∨ 0xF5 ≤ b →
      decodeIgnore (b :: bs) = decodeIgnore bs) := by
  constructor
  · intro bs cs h
    exact decodeAux_agree bs.length bs cs (le_refl _) h
  · intro b bs h
    show decodeIgnoreAux (b :: bs).length (b :: bs) = decodeIgnore bs
    simp only [List.length_cons, decodeIgnoreAux, utf8Classify_invalid_lead b bs h,
      List.drop_zero]
    rfl

/-- C9 (witness): the amended statement on concrete bytes — a valid
two-byte sequence decodes as in strict mode, and a leading `0xFF` is
dropped. -/
theorem decode_ignore_total_and_drops_witness :
    decodeIgnore [0x61, 0xC3, 0xA9] = ['a', Char.ofNat 0xE9] ∧
    decodeIgnore [0xFF, 0x41] = decodeIgnore [0x41] :=
  ⟨decode_ignore_total_and_drops.1 [0x61, 0xC3, 0xA9] ['a', Char.ofNat 0xE9]
      (by decide),
   decode_ignore_total_and_drops.2 0xFF [0x41] (by decide)⟩

/-- C10: `run_once` strips the text before whitespace-splitting, so no
produced token is empty, and an all-whitespace (or empty) text yields the
empty token list without error. -/
theorem run_once_tokens_clean (text : List Char) :
    (∀ t ∈ runOnceTokens text, t ≠ []) ∧
    ((∀ c ∈ text, isPySpace c = true) → runOnceTokens text = []) := by
  constructor
  · intro t ht
    exact pySplitAux_mem_ne_nil (pyStrip text) [] t ht
  · intro h
    unfold runOnceTokens pySplit
    rw [pyStrip_all_space text h]
    rfl

/-- C10 (witness): the statement evaluated on an all-whitespace text. -/
theorem run_once_tokens_clean_witness :
    (∀ t ∈ runOnceTokens " \t ".data, t ≠ []) ∧
    runOnceTokens " \t ".data = [] :=
  ⟨(run_once_tokens_clean " \t ".data).1,
   (run_once_tokens_clean " \t ".data).2 (by decide)⟩

/-- C7: for every environment — in particular whenever any of the package
imports raises — the probe report still contains one status line per
probed package, in the declared order, followed later by both smoke-test
lines; and a raised import surfaces as a `NOT INSTALLED` status value
rather than aborting the probe. -/
theorem prober_isolation (E : ProbeEnv) :
    (∃ pre mid post,
      probeMain E =
        pre ++
        [print_kv "protobuf".data (pkgStatus (safe_import E "google.protobuf".data)),
         print_kv "spacy".data (pkgStatus (safe_import E "spacy".data)),
         print_kv "torch".data (pkgStatus (safe_import E "torch".data)),
         print_kv "gensim".data (pkgStatus (safe_import E "gensim".data)),
         print_kv "tensorboardX".data (pkgStatus (safe_import E "tensorboardX".data)),
         print_kv "lmdb".data (pkgStatus (safe_import E "lmdb".data)),
         print_kv "sciwing".data (pkgStatus (safe_import E "sciwing".data))] ++
        mid ++
        [spaCy_smoke E (safe_import E "spacy".data).1,
         tbx_smoke E (safe_import E "tensorboardX".data).1] ++ post) ∧
    (∀ (name e : List Char), E.importMod name = .raised e →
      pkgStatus (safe_import E name) = "NOT INSTALLED (".data ++ e ++ ")".data) := by
  constructor
  · exact ⟨[sep60, "RUNTIME".data, sep60,
      print_kv "python_executable".data E.pythonExecutable,
      print_kv "python_version".data
        (E.pythonVersion.map (fun c => if c = '\n' then ' ' else c)),
      print_kv "platform".data E.platformDescr,
      nlSep60, "ENV VARS".data, sep60,
      print_kv "SCIWING_LITE".data ((E.getenv "SCIWING_LITE".data).getD "None".data),
      print_kv "PROTOCOL_BUFFERS_PYTHON_IMPLEMENTATION".data
        ((E.getenv "PROTOCOL_BUFFERS_PYTHON_IMPLEMENTATION".data).getD "None".data),
      nlSep60, "PACKAGES".data, sep60],
      [nlSep60, "SMOKE TESTS".data, sep60],
      [nlSep60, "DONE".data, sep60], rfl⟩
  · intro name e h
    simp [safe_import, pkgStatus, h]

/-- An environment in which every package import raises. -/
def proberAllRaiseEnv : ProbeEnv where
  importMod := fun _ => .raised "boom".data
  getenv := fun _ => none
  pythonExecutable := "python.exe".data
  pythonVersion := "3.7.9".data
  platformDescr := "Windows-10".data
  spacyRun := .error "spacy not installed".data
  tbxRun := .error "tensorboardX not installed".data

/-- C7 (witness): with every import raising, the report still decomposes
with all seven status lines and both smoke lines, and the `spacy` status
value is the `NOT INSTALLED` rendering of the raised message. -/
theorem prober_isolation_witness :
    (∃ pre mid post,
      probeMain proberAllRaiseEnv =
        pre ++
        [print_kv "protobuf".data
          (pkgStatus (safe_import proberAllRaiseEnv "google.protobuf".data)),
         print_kv "spacy".data
          (pkgStatus (safe_import proberAllRaiseEnv "spacy".data)),
         print_kv "torch".data
          (pkgStatus (safe_import proberAllRaiseEnv "torch".data)),
         print_kv "gensim".data
          (pkgStatus (safe_import proberAllRaiseEnv "gensim".data)),
         print_kv "tensorboardX".data
          (pkgStatus (safe_import proberAllRaiseEnv "tensorboardX".data)),
         print_kv "lmdb".data
          (pkgStatus (safe_import proberAllRaiseEnv "lmdb".data)),
         print_kv "sciwing".data
          (pkgStatus (safe_import proberAllRaiseEnv "sciwing".data))] ++
        mid ++
        [spaCy_smoke proberAllRaiseEnv (safe_import proberAllRaiseEnv "spacy".data).1,
         tbx_smoke proberAllRaiseEnv
           (safe_import proberAllRaiseEnv "tensorboardX".data).1] ++ post) ∧
    pkgStatus (safe_import proberAllRaiseEnv "spacy".data) =
      "NOT INSTALLED (".data ++ "boom".data ++ ")".data :=
  ⟨(prober_isolation proberAllRaiseEnv).1,
   (prober_isolation proberAllRaiseEnv).2 "spacy".data "boom".data rfl⟩
